import Mathlib

/-!
# auth-api: a verification development

A shallow embedding of `main.go` (package `main` of the auth-api service) and
of the few Go standard-library operations its handlers call, followed by
theorems about the credential generator, the identity store, the token claim
set and the access gate.

Conventions of the embedding.

* Go `string` is `String`; Go `int` is `Int`, with the 64-bit bounds made
  explicit where a value can reach them (`strconv.Atoi`).
* A Go `map[string]V` is a function `String → Option V` (`none` = key absent);
  `m[k] = v` is a pointwise update.
* `http.HandlerFunc` is a function from the process state, the response
  writer and the request to the new process state and response writer; the
  result is `none` when the handler panics.
* `encoding/json`, the JWT library's signing and parsing, the clock and the
  random source are external: a request body is represented by what decoding
  it yields, `SignedString` and `ParseWithClaims` are parameters, clock
  readings and random indices are inputs.
-/

namespace AuthApi

/-! ## Go standard library -/

namespace strings

/-- Splitting of a character sequence at every occurrence of `sep`; the pieces
between separators are returned in order, empty pieces included. -/
def splitChars (sep : Char) : List Char → List (List Char)
  | [] => [[]]
  | c :: cs =>
    if c = sep then [] :: splitChars sep cs
    else
      match splitChars sep cs with
      | [] => [[c]]
      | p :: ps => (c :: p) :: ps

/-- Go `strings.Split(s, sep)` for a separator of one character: the
substrings between the separators, `n + 1` of them when `sep` occurs `n`
times. -/
def Split (s : String) (sep : Char) : List String :=
  (splitChars sep s.data).map String.mk

end strings

namespace textproto

/-- Go `validHeaderFieldByte`: the token characters of RFC 7230. -/
def validHeaderFieldByte (c : Char) : Bool :=
  c.isAlphanum || "!#$%&*+-.^_|~".data.contains c || c == Char.ofNat 39 || c == Char.ofNat 96

/-- The canonicalisation loop of Go `canonicalMIMEHeaderKey`: upper case for
the first letter and for a letter after a dash, lower case elsewhere. -/
def canonicalLoop (upper : Bool) : List Char → List Char
  | [] => []
  | c :: cs =>
    let c1 :=
      if upper && c.isLower then c.toUpper
      else if !upper && c.isUpper then c.toLower
      else c
    c1 :: canonicalLoop (c1 == '-') cs

/-- Go `textproto.CanonicalMIMEHeaderKey`: a key with a byte that is not a
token character is returned unchanged, any other key is canonicalised. -/
def CanonicalMIMEHeaderKey (s : String) : String :=
  if s.data.all validHeaderFieldByte then String.mk (canonicalLoop true s.data) else s

end textproto

namespace http

/-- Go `http.Header`, a `map[string][]string`. -/
abbrev Header := String → Option (List String)

/-- The empty header map. -/
def Header.empty : Header := fun _ => none

/-- Go `Header.Get`: the first value stored under the canonical form of
`key`, or `""`. -/
def Header.Get (h : Header) (key : String) : String :=
  match h (textproto.CanonicalMIMEHeaderKey key) with
  | some (v :: _) => v
  | _ => ""

/-- Go `Header.Set`: the entry under the canonical form of `key` is replaced
by the single value `value`. -/
def Header.Set (h : Header) (key value : String) : Header :=
  fun k => if k = textproto.CanonicalMIMEHeaderKey key then some [value] else h k

def StatusOK : Nat := 200
def StatusCreated : Nat := 201
def StatusBadRequest : Nat := 400
def StatusUnauthorized : Nat := 401
def StatusMethodNotAllowed : Nat := 405
def StatusConflict : Nat := 409
def StatusInternalServerError : Nat := 500

def MethodGet : String := "GET"
def MethodPost : String := "POST"

end http

namespace strconv

/-- The decimal digit character of `d`, for `d < 10`. -/
def digitChar (d : Nat) : Char := Char.ofNat (48 + d)

/-- The digit loop of Go `formatBits` in base 10: the last digit of `n` is
put in front of `acc` and the loop goes on with `n / 10` until one digit is
left. `fuel` bounds the number of iterations. -/
def formatLoop : Nat → Nat → List Char → List Char
  | 0, _, acc => acc
  | fuel + 1, n, acc =>
    if n < 10 then digitChar n :: acc
    else formatLoop fuel (n / 10) (digitChar (n % 10) :: acc)

/-- Decimal digits of a natural number, most significant first; `"0"` for
zero. The loop runs at most `n + 1` times. -/
def natDigits (n : Nat) : List Char := formatLoop (n + 1) n []

/-- Go `strconv.Itoa`: decimal rendering, with a leading `-` for a negative
number. -/
def Itoa (i : Int) : String :=
  if i < 0 then String.mk ('-' :: natDigits i.natAbs) else String.mk (natDigits i.natAbs)

/-- The value of a sequence of decimal digits; `none` for an empty sequence
or one with a character that is not a digit. -/
def parseDigits (cs : List Char) : Option Nat :=
  if cs = [] then none
  else cs.foldl
    (fun acc c => acc.bind fun n => if c.isDigit then some (n * 10 + (c.toNat - 48)) else none)
    (some 0)

def maxInt : Int := 2 ^ 63 - 1
def minInt : Int := -(2 ^ 63)

/-- Go `strconv.Atoi` for a 64-bit `int`: the value and whether an error was
returned. An optional sign followed by decimal digits is accepted; a value
out of range gives the nearest bound with an error, any other input gives 0
with an error. -/
def Atoi (s : String) : Int × Bool :=
  let s0 := s.data
  let neg : Bool := s0.head? = some '-'
  let ds := if s0.head? = some '-' ∨ s0.head? = some '+' then s0.tail else s0
  match parseDigits ds with
  | none => (0, true)
  | some un =>
    if !neg && (un : Int) > maxInt then (maxInt, true)
    else if neg && -(un : Int) < minInt then (minInt, true)
    else (if neg then -(un : Int) else (un : Int), false)

end strconv

namespace time

/-- An instant, in nanoseconds since the Unix epoch (Go `time.Time`). -/
abbrev Time := Int

/-- Go `time.Duration`, in nanoseconds. -/
abbrev Duration := Int

def Second : Duration := 1000000000
def Hour : Duration := 3600 * Second

/-- Go `Time.Add`. -/
def Add (t : Time) (d : Duration) : Time := t + d

/-- Go `Time.Truncate`: `t` rounded down to a multiple of `d`. -/
def Truncate (t : Time) (d : Duration) : Time := t - t % d

end time

namespace jwt

def TimePrecision : time.Duration := time.Second

/-- The `jwt.NewNumericDate` constructor: the instant truncated to
`TimePrecision`. -/
def NewNumericDate (t : time.Time) : time.Time := time.Truncate t TimePrecision

end jwt

/-! ## Data model of `main.go` -/

structure RegisterRequest where
  NIK : String
  Role : String
deriving DecidableEq, Repr

structure RegisterResponse where
  ID : Int
  NIK : String
  Role : String
  Password : String
  Message : String
deriving DecidableEq, Repr

structure LoginRequest where
  NIK : String
  Password : String
deriving DecidableEq, Repr

structure LoginResponse where
  ID : Int
  NIK : String
  Role : String
  AccessToken : String
  Message : String
deriving DecidableEq, Repr

structure ProfileResponse where
  ID : Int
  NIK : String
  Role : String
  Message : String
deriving DecidableEq, Repr

structure ErrorResponse where
  Error : String
  Message : String
deriving DecidableEq, Repr

structure User where
  ID : Int
  NIK : String
  Role : String
  Password : String
deriving DecidableEq, Repr

/-- The `Claims` struct: the three identity fields and the fields of the
embedded `jwt.RegisteredClaims` that the program sets (a nil `*NumericDate`
is `none`). -/
structure Claims where
  ID : Int
  NIK : String
  Role : String
  ExpiresAt : Option time.Time
  IssuedAt : Option time.Time
  Issuer : String
deriving DecidableEq, Repr

/-- A value handed to `json.NewEncoder(w).Encode`. -/
inductive Payload where
  | error (e : ErrorResponse)
  | register (r : RegisterResponse)
  | login (r : LoginResponse)
  | profile (r : ProfileResponse)
  | fields (m : List (String × String))
deriving DecidableEq, Repr

/-- A request body, represented by what `json.NewDecoder(r.Body).Decode`
yields for each of the two request structs (`none` = decoding error). -/
structure Body where
  asRegister : Option RegisterRequest
  asLogin : Option LoginRequest
deriving DecidableEq, Repr

/-- The fields of `*http.Request` the handlers read. -/
structure Request where
  Method : String
  Header : http.Header
  Body : Body

/-- A recording `http.ResponseWriter`: the header map, the status code of the
first `WriteHeader` and the values encoded to the body. -/
structure ResponseWriter where
  header : http.Header
  status : Option Nat
  body : List Payload

namespace ResponseWriter

/-- A writer nothing has been written to. -/
def fresh : ResponseWriter := ⟨http.Header.empty, none, []⟩

/-- The call `w.Header().Set(key, value)`. -/
def HeaderSet (w : ResponseWriter) (key value : String) : ResponseWriter :=
  { w with header := http.Header.Set w.header key value }

/-- The call `w.WriteHeader(code)`: the first status code written is kept. -/
def WriteHeader (w : ResponseWriter) (code : Nat) : ResponseWriter :=
  match w.status with
  | none => { w with status := some code }
  | some _ => w

/-- The call `json.NewEncoder(w).Encode(v)`: a write to the body, which sends
status 200 first when no status has been written. -/
def Encode (w : ResponseWriter) (v : Payload) : ResponseWriter :=
  let w1 := WriteHeader w http.StatusOK
  { w1 with body := w1.body ++ [v] }

end ResponseWriter

/-- The package-level variables `users` and `userCounter`. The counter is an
unbounded integer: it is incremented once per stored record, so the 64-bit
`int` could wrap only with 2^63 - 1 records in the map, more than an address
space holds. -/
structure Store where
  users : String → Option User
  userCounter : Int

/-- The initial values: `make(map[string]User)` and `1`. -/
def Store.init : Store := ⟨fun _ => none, 1⟩

/-- Go `http.HandlerFunc` over the package state; `none` is a panic. -/
abbrev HandlerFunc := Store → ResponseWriter → Request → Option (Store × ResponseWriter)

/-! ## Functions of `main.go` -/

def charset : String := "abcdefghijklmnopqrstuvwxyzABCDEFGHIJKLMNOPQRSTUVWXYZ0123456789"

/-- The loop of `generatePassword` over the positions `is`: position `i` gets
`charset[rnd i]`; an index out of range is a panic (`none`). -/
def generatePassword.loop (rnd : Nat → Nat) : List Nat → Option (List Char)
  | [] => some []
  | i :: is =>
    match charset.data.get? (rnd i) with
    | none => none
    | some c => (generatePassword.loop rnd is).map (c :: ·)

/-- Function `generatePassword`; `rnd i` is the index `randomIndex.Int64()`
drawn in iteration `i`. -/
def generatePassword (rnd : Nat → Nat) : Option String :=
  (generatePassword.loop rnd (List.range 6)).map String.mk

/-- The claim set built by `generateJWT`; `now1` and `now2` are the results of
the two calls of `time.Now()`, in evaluation order. -/
def generateJWT.claims (now1 now2 : time.Time) (user : User) : Claims :=
  { ID := user.ID
    NIK := user.NIK
    Role := user.Role
    ExpiresAt := some (jwt.NewNumericDate (time.Add now1 (24 * time.Hour)))
    IssuedAt := some (jwt.NewNumericDate now2)
    Issuer := "auth-api" }

/-- Function `generateJWT`; `SignedString` is the signing of a claim set with
`jwtSecret` (`none` = error). -/
def generateJWT (SignedString : Claims → Option String) (now1 now2 : time.Time) (user : User) :
    Option String :=
  SignedString (generateJWT.claims now1 now2 user)

/-- Function `validateJWT`; `ParseWithClaims tokenString` is the claim set
filled in by `jwt.ParseWithClaims` with `jwtSecret` when it returns no error
and a valid token, and `none` otherwise. -/
def validateJWT (ParseWithClaims : String → Option Claims) (next : HandlerFunc) : HandlerFunc :=
  fun st w r =>
    let authHeader := http.Header.Get r.Header "Authorization"
    if authHeader = "" then
      some (st, ((w.HeaderSet "Content-Type" "application/json").WriteHeader
        http.StatusUnauthorized).Encode (.error ⟨"unauthorized", "Token tidak ditemukan"⟩))
    else
      let tokenParts := strings.Split authHeader ' '
      if tokenParts.length ≠ 2 ∨ tokenParts.getD 0 "" ≠ "Bearer" then
        some (st, ((w.HeaderSet "Content-Type" "application/json").WriteHeader
          http.StatusUnauthorized).Encode (.error ⟨"unauthorized", "Format token tidak valid"⟩))
      else
        let tokenString := tokenParts.getD 1 ""
        match ParseWithClaims tokenString with
        | none =>
          some (st, ((w.HeaderSet "Content-Type" "application/json").WriteHeader
            http.StatusUnauthorized).Encode (.error ⟨"unauthorized", "Token tidak valid"⟩))
        | some claims =>
          let h1 := http.Header.Set r.Header "X-User-ID" (strconv.Itoa claims.ID)
          let h2 := http.Header.Set h1 "X-User-NIK" claims.NIK
          let h3 := http.Header.Set h2 "X-User-Role" claims.Role
          next st w { r with Header := h3 }

/-- The request that lines 147-151 of `validateJWT` hand to the wrapped
handler: the incoming request after the three calls of `r.Header.Set`. -/
def validateJWT.forwarded (r : Request) (claims : Claims) : Request :=
  { r with
    Header :=
      http.Header.Set
        (http.Header.Set
          (http.Header.Set r.Header "X-User-ID" (strconv.Itoa claims.ID))
          "X-User-NIK" claims.NIK)
        "X-User-Role" claims.Role }

/-- Function `registerHandler`; `rnd` are the indices drawn by the call of
`generatePassword`. -/
def registerHandler (rnd : Nat → Nat) : HandlerFunc :=
  fun st w r =>
    if r.Method ≠ http.MethodPost then
      some (st, ((w.HeaderSet "Content-Type" "application/json").WriteHeader
        http.StatusMethodNotAllowed).Encode
          (.error ⟨"method_not_allowed", "Hanya menerima POST request"⟩))
    else
      match r.Body.asRegister with
      | none =>
        some (st, ((w.HeaderSet "Content-Type" "application/json").WriteHeader
          http.StatusBadRequest).Encode (.error ⟨"bad_request", "Format JSON tidak valid"⟩))
      | some req =>
        if req.NIK = "" ∨ req.Role = "" then
          some (st, ((w.HeaderSet "Content-Type" "application/json").WriteHeader
            http.StatusBadRequest).Encode (.error ⟨"bad_request", "NIK dan Role harus diisi"⟩))
        else if (st.users req.NIK).isSome then
          some (st, ((w.HeaderSet "Content-Type" "application/json").WriteHeader
            http.StatusConflict).Encode (.error ⟨"conflict", "NIK sudah terdaftar"⟩))
        else
          match generatePassword rnd with
          | none => none
          | some password =>
            let user : User :=
              { ID := st.userCounter, NIK := req.NIK, Role := req.Role, Password := password }
            let st1 : Store :=
              { users := fun k => if k = req.NIK then some user else st.users k
                userCounter := st.userCounter + 1 }
            let response : RegisterResponse :=
              { ID := user.ID, NIK := user.NIK, Role := user.Role, Password := password
                Message := "User berhasil didaftarkan" }
            some (st1, ((w.HeaderSet "Content-Type" "application/json").WriteHeader
              http.StatusCreated).Encode (.register response))

/-- Function `loginHandler`; `SignedString`, `now1` and `now2` are the inputs
of its call of `generateJWT`. -/
def loginHandler (SignedString : Claims → Option String) (now1 now2 : time.Time) : HandlerFunc :=
  fun st w r =>
    if r.Method ≠ http.MethodPost then
      some (st, ((w.HeaderSet "Content-Type" "application/json").WriteHeader
        http.StatusMethodNotAllowed).Encode
          (.error ⟨"method_not_allowed", "Hanya menerima POST request"⟩))
    else
      match r.Body.asLogin with
      | none =>
        some (st, ((w.HeaderSet "Content-Type" "application/json").WriteHeader
          http.StatusBadRequest).Encode (.error ⟨"bad_request", "Format JSON tidak valid"⟩))
      | some req =>
        if req.NIK = "" ∨ req.Password = "" then
          some (st, ((w.HeaderSet "Content-Type" "application/json").WriteHeader
            http.StatusBadRequest).Encode
              (.error ⟨"bad_request", "NIK dan Password harus diisi"⟩))
        else
          match st.users req.NIK with
          | none =>
            some (st, ((w.HeaderSet "Content-Type" "application/json").WriteHeader
              http.StatusUnauthorized).Encode
                (.error ⟨"unauthorized", "NIK atau Password salah"⟩))
          | some user =>
            if user.Password ≠ req.Password then
              some (st, ((w.HeaderSet "Content-Type" "application/json").WriteHeader
                http.StatusUnauthorized).Encode
                  (.error ⟨"unauthorized", "NIK atau Password salah"⟩))
            else
              match generateJWT SignedString now1 now2 user with
              | none =>
                some (st, ((w.HeaderSet "Content-Type" "application/json").WriteHeader
                  http.StatusInternalServerError).Encode
                    (.error ⟨"internal_error", "Gagal membuat token"⟩))
              | some token =>
                let response : LoginResponse :=
                  { ID := user.ID, NIK := user.NIK, Role := user.Role, AccessToken := token
                    Message := "Login berhasil" }
                some (st, ((w.HeaderSet "Content-Type" "application/json").WriteHeader
                  http.StatusOK).Encode (.login response))

/-- Function `profileHandler`. -/
def profileHandler : HandlerFunc :=
  fun st w r =>
    if r.Method ≠ http.MethodGet then
      some (st, ((w.HeaderSet "Content-Type" "application/json").WriteHeader
        http.StatusMethodNotAllowed).Encode
          (.error ⟨"method_not_allowed", "Hanya menerima GET request"⟩))
    else
      let userID := http.Header.Get r.Header "X-User-ID"
      let userNIK := http.Header.Get r.Header "X-User-NIK"
      let userRole := http.Header.Get r.Header "X-User-Role"
      let id := (strconv.Atoi userID).1
      let response : ProfileResponse :=
        { ID := id, NIK := userNIK, Role := userRole, Message := "Data profile berhasil diambil" }
      some (st, ((w.HeaderSet "Content-Type" "application/json").WriteHeader
        http.StatusOK).Encode (.profile response))

/-- Function `healthHandler`. -/
def healthHandler : HandlerFunc :=
  fun st w _ =>
    some (st, ((w.HeaderSet "Content-Type" "application/json").WriteHeader
      http.StatusOK).Encode (.fields [("status", "ok"), ("message", "Auth API is running")]))

/-! ## Request sequences -/

/-- A served request that can touch the store: a call of `registerHandler`
or of `loginHandler`, with the inputs the handler takes from its
environment. -/
inductive Event where
  | register (rnd : Nat → Nat) (r : Request)
  | login (SignedString : Claims → Option String) (now1 now2 : time.Time) (r : Request)

/-- The result of serving an event on a new response writer. -/
def Event.serve (st : Store) : Event → Option (Store × ResponseWriter)
  | .register rnd r => registerHandler rnd st ResponseWriter.fresh r
  | .login SignedString now1 now2 r =>
    loginHandler SignedString now1 now2 st ResponseWriter.fresh r

/-- The store after an event. The server recovers a panicking handler, and
`registerHandler` can panic only before its first write to the store, so a
panic leaves the store as it was. -/
def step (st : Store) (e : Event) : Store :=
  match e.serve st with
  | some (st1, _) => st1
  | none => st

/-- The store after a sequence of events. -/
def run (st : Store) (es : List Event) : Store := es.foldl step st

/-- Whether serving the event answers 201 Created. -/
def Event.created (st : Store) (e : Event) : Bool :=
  match e.serve st with
  | some (_, w) => w.status == some http.StatusCreated
  | none => false

/-- The number of events of the sequence that are answered 201 Created. -/
def countCreated : Store → List Event → Nat
  | _, [] => 0
  | st, e :: es => (if e.created st then 1 else 0) + countCreated (step st e) es

/-- The store invariant: the counter is at least 1, the record under key `k`
has NIK `k` and an id from 1 up to but excluding the counter, and two keys
with records of the same id are the same key. -/
def Store.Inv (st : Store) : Prop :=
  1 ≤ st.userCounter ∧
  (∀ k u, st.users k = some u → u.NIK = k ∧ 1 ≤ u.ID ∧ u.ID < st.userCounter) ∧
  (∀ k1 k2 u1 u2, st.users k1 = some u1 → st.users k2 = some u2 → u1.ID = u2.ID → k1 = k2)

/-! ## Two requests served concurrently

`registerHandler` takes no lock. Its accesses to the package state fall in two
groups: the existence check of line 188, and the reads and writes of lines
201-207. Two goroutines running the handler interleave at that
granularity. -/

/-- Lines 157-196 of `registerHandler`: the early returns, or the decoded
request when the existence check finds nothing. -/
def registerHandler.check (st : Store) (w : ResponseWriter) (r : Request) :
    ResponseWriter ⊕ RegisterRequest :=
  if r.Method ≠ http.MethodPost then
    .inl (((w.HeaderSet "Content-Type" "application/json").WriteHeader
      http.StatusMethodNotAllowed).Encode
        (.error ⟨"method_not_allowed", "Hanya menerima POST request"⟩))
  else
    match r.Body.asRegister with
    | none =>
      .inl (((w.HeaderSet "Content-Type" "application/json").WriteHeader
        http.StatusBadRequest).Encode (.error ⟨"bad_request", "Format JSON tidak valid"⟩))
    | some req =>
      if req.NIK = "" ∨ req.Role = "" then
        .inl (((w.HeaderSet "Content-Type" "application/json").WriteHeader
          http.StatusBadRequest).Encode (.error ⟨"bad_request", "NIK dan Role harus diisi"⟩))
      else if (st.users req.NIK).isSome then
        .inl (((w.HeaderSet "Content-Type" "application/json").WriteHeader
          http.StatusConflict).Encode (.error ⟨"conflict", "NIK sudah terdaftar"⟩))
      else .inr req

/-- Lines 198-219 of `registerHandler`. -/
def registerHandler.insert (rnd : Nat → Nat) (st : Store) (w : ResponseWriter)
    (req : RegisterRequest) : Option (Store × ResponseWriter) :=
  match generatePassword rnd with
  | none => none
  | some password =>
    let user : User :=
      { ID := st.userCounter, NIK := req.NIK, Role := req.Role, Password := password }
    let st1 : Store :=
      { users := fun k => if k = req.NIK then some user else st.users k
        userCounter := st.userCounter + 1 }
    let response : RegisterResponse :=
      { ID := user.ID, NIK := user.NIK, Role := user.Role, Password := password
        Message := "User berhasil didaftarkan" }
    some (st1, ((w.HeaderSet "Content-Type" "application/json").WriteHeader
      http.StatusCreated).Encode (.register response))

/-- A goroutine running `registerHandler`: before the existence check, between
the check and the insertion, returned, or panicked. -/
inductive Goroutine where
  | start (rnd : Nat → Nat) (w : ResponseWriter) (r : Request)
  | checked (rnd : Nat → Nat) (w : ResponseWriter) (req : RegisterRequest)
  | done (w : ResponseWriter)
  | panicked

/-- One scheduling slot of a goroutine. -/
def Goroutine.step (st : Store) : Goroutine → Store × Goroutine
  | .start rnd w r =>
    match registerHandler.check st w r with
    | .inl w1 => (st, .done w1)
    | .inr req => (st, .checked rnd w req)
  | .checked rnd w req =>
    match registerHandler.insert rnd st w req with
    | none => (st, .panicked)
    | some (st1, w1) => (st1, .done w1)
  | g => (st, g)

/-- The status code a goroutine has answered with, if it has returned. -/
def Goroutine.status : Goroutine → Option Nat
  | .done w => w.status
  | _ => none

/-- The package state and two goroutines. -/
structure Sys where
  st : Store
  a : Goroutine
  b : Goroutine

/-- The scheduler gives a slot to the first goroutine (`true`) or to the
second (`false`). -/
def Sys.step (s : Sys) (first : Bool) : Sys :=
  if first then
    let p := s.a.step s.st
    { st := p.1, a := p.2, b := s.b }
  else
    let p := s.b.step s.st
    { st := p.1, a := s.a, b := p.2 }

/-- The system after a schedule. -/
def Sys.run (s : Sys) (sched : List Bool) : Sys := sched.foldl Sys.step s

/-- Two register requests on new response writers, not yet started. -/
def Sys.start (st : Store) (rndA rndB : Nat → Nat) (rA rB : Request) : Sys :=
  { st := st
    a := .start rndA ResponseWriter.fresh rA
    b := .start rndB ResponseWriter.fresh rB }

/-! ## Concrete inputs used by the examples -/

/-- A request with the given method, `Authorization` header and body. -/
def mkRequest (method : String) (auth : Option String) (body : Body) : Request :=
  { Method := method
    Header := fun k => if k = "Authorization" then auth.map (fun v => [v]) else none
    Body := body }

/-- A POST request with body `{"nik": nik, "role": role}`. -/
def registerRequest (nik role : String) : Request :=
  mkRequest "POST" none ⟨some ⟨nik, role⟩, some ⟨nik, ""⟩⟩

/-- A POST request with body `{"nik": nik, "password": password}`. -/
def loginRequest (nik password : String) : Request :=
  mkRequest "POST" none ⟨some ⟨nik, ""⟩, some ⟨nik, password⟩⟩

/-- A verifier that accepts the token `"tok"` only, with the claims of user
1. -/
def sampleParse (tokenString : String) : Option Claims :=
  if tokenString = "tok" then
    some ⟨1, "123", "user", some 86400000000000, some 0, "auth-api"⟩
  else none

/-- A GET request with header `Authorization: Bearer tok` and no other
header. -/
def bearerRequest : Request := mkRequest "GET" (some "Bearer tok") ⟨none, none⟩

/-- A GET request with header `Authorization: Bearer tok` on which the caller
has also put `X-User-Id`, `X-User-Nik` and `X-User-Role` headers. -/
def spoofedRequest : Request :=
  { Method := "GET"
    Header := fun k =>
      if k = "Authorization" then some ["Bearer tok"]
      else if k = "X-User-Id" then some ["42"]
      else if k = "X-User-Nik" then some ["999"]
      else if k = "X-User-Role" then some ["admin"]
      else none
    Body := ⟨none, none⟩ }

/-- A handler that panics whenever it is called. -/
def panicHandler : HandlerFunc := fun _ _ _ => none

/-- A signer that always succeeds. -/
def sampleSign (_ : Claims) : Option String := some "tok"

/-- The header map of a JSON response. -/
def jsonHeader : http.Header :=
  http.Header.Set http.Header.empty "Content-Type" "application/json"

/-- What a new response writer holds after the three calls every handler
ends with: `Content-Type` set, status `code` written, `v` encoded. -/
def jsonResponse (code : Nat) (v : Payload) : ResponseWriter :=
  { header := jsonHeader, status := some code, body := [v] }

/-! # Theorems

## The credential generator -/

theorem charset_length : charset.data.length = 62 := by decide

theorem charset_alphanum : ∀ c ∈ charset.data, c.isAlphanum = true := by decide

theorem generatePassword_loop_some (rnd : Nat → Nat) (is : List Nat)
    (h : ∀ i ∈ is, rnd i < 62) :
    ∃ cs, generatePassword.loop rnd is = some cs ∧ cs.length = is.length ∧
      ∀ c ∈ cs, c ∈ charset.data := by
  induction is with
  | nil => exact ⟨[], rfl, rfl, by simp⟩
  | cons i is ih =>
    obtain ⟨cs, hcs, hlen, hmem⟩ := ih (fun j hj => h j (List.mem_cons_of_mem _ hj))
    have hi : rnd i < charset.data.length := by
      rw [charset_length]; exact h i (List.mem_cons_self _ _)
    obtain ⟨c, hc⟩ : ∃ c, charset.data.get? (rnd i) = some c :=
      ⟨_, List.get?_eq_get hi⟩
    refine ⟨c :: cs, ?_, by simp [hlen], ?_⟩
    · rw [generatePassword.loop, hc, hcs]; rfl
    · intro d hd
      rcases List.mem_cons.mp hd with rfl | hd
      · exact List.get?_mem hc
      · exact hmem d hd

theorem generatePassword_some (rnd : Nat → Nat) (h : ∀ i, i < 6 → rnd i < 62) :
    ∃ s, generatePassword rnd = some s := by
  obtain ⟨cs, hcs, _, _⟩ :=
    generatePassword_loop_some rnd (List.range 6) (fun i hi => h i (List.mem_range.mp hi))
  exact ⟨String.mk cs, by simp [generatePassword, hcs]⟩

/-- C6: whatever indices in the range 0..61 the random source returns,
`generatePassword` does not panic on the charset index and returns a string
of length exactly 6 whose every character is one of the 62 characters of the
charset, which are the letters a-z, A-Z and the digits 0-9. -/
theorem generatePassword_spec (rnd : Nat → Nat) (h : ∀ i, i < 6 → rnd i < 62) :
    ∃ s, generatePassword rnd = some s ∧ s.length = 6 ∧
      (∀ c ∈ s.data, c ∈ charset.data ∧ c.isAlphanum = true) ∧ charset.length = 62 := by
  obtain ⟨cs, hcs, hlen, hmem⟩ :=
    generatePassword_loop_some rnd (List.range 6) (fun i hi => h i (List.mem_range.mp hi))
  refine ⟨String.mk cs, by simp [generatePassword, hcs], ?_, ?_, by decide⟩
  · simpa using hlen
  · intro c hc
    exact ⟨hmem c hc, charset_alphanum c (hmem c hc)⟩

theorem generatePassword_spec_witness :
    (∀ i, i < 6 → (fun j => 10 * j) i < 62) ∧
    ∃ s, generatePassword (fun j => 10 * j) = some s ∧ s.length = 6 ∧
      (∀ c ∈ s.data, c ∈ charset.data ∧ c.isAlphanum = true) ∧ charset.length = 62 :=
  ⟨by intro i hi; show 10 * i < 62; omega,
   generatePassword_spec (fun j => 10 * j) (by intro i hi; show 10 * i < 62; omega)⟩

/-! ## Response writer -/

theorem fresh_reply (code : Nat) (v : Payload) :
    ((ResponseWriter.fresh.HeaderSet "Content-Type" "application/json").WriteHeader code).Encode v
      = jsonResponse code v := rfl

/-! ## The claim set of an issued token -/

theorem truncate_add_day_int (t : Int) :
    (t + 24 * (3600 * 1000000000)) - (t + 24 * (3600 * 1000000000)) % 1000000000
      = t - t % 1000000000 + 24 * (3600 * 1000000000) := by
  omega

theorem truncate_eq_iff_int (t1 t2 : Int) :
    t1 - t1 % 1000000000 = t2 - t2 % 1000000000 ↔ t1 / 1000000000 = t2 / 1000000000 := by
  omega

theorem truncate_add_day (t : time.Time) :
    jwt.NewNumericDate (time.Add t (24 * time.Hour)) = jwt.NewNumericDate t + 24 * time.Hour := by
  exact truncate_add_day_int t

theorem truncate_eq_iff (t1 t2 : time.Time) :
    jwt.NewNumericDate t1 = jwt.NewNumericDate t2 ↔ t1 / time.Second = t2 / time.Second := by
  exact truncate_eq_iff_int t1 t2

/-- C9 (as stated, refuted): with the first clock reading at 0.999999999 s
and the second one nanosecond later, the claim set built by `generateJWT` has
`expiresAt` = 86400 s and `issuedAt` = 1 s, so `expiresAt` is not
`issuedAt` + 24 h. -/
theorem generateJWT_claims_counterexample :
    (generateJWT.claims 999999999 1000000000 ⟨1, "123", "user", "abcdef"⟩).ExpiresAt
        = some 86400000000000 ∧
    (generateJWT.claims 999999999 1000000000 ⟨1, "123", "user", "abcdef"⟩).IssuedAt
        = some 1000000000 ∧
    (generateJWT.claims 999999999 1000000000 ⟨1, "123", "user", "abcdef"⟩).ExpiresAt
        ≠ (generateJWT.claims 999999999 1000000000 ⟨1, "123", "user", "abcdef"⟩).IssuedAt.map
            (fun t => t + 24 * time.Hour) := by
  decide

/-- C9 (amended): the claim set built and signed by `generateJWT` has id, nik
and role equal to the user's fields and issuer "auth-api"; `expiresAt` is the
first clock reading truncated to whole seconds plus 24 hours, `issuedAt` is
the second clock reading truncated to whole seconds; and `expiresAt` equals
`issuedAt` + 24 hours exactly when the two readings fall in the same whole
second. -/
theorem generateJWT_claims_spec (SignedString : Claims → Option String)
    (now1 now2 : time.Time) (user : User) :
    generateJWT SignedString now1 now2 user
        = SignedString (generateJWT.claims now1 now2 user) ∧
    (generateJWT.claims now1 now2 user).ID = user.ID ∧
    (generateJWT.claims now1 now2 user).NIK = user.NIK ∧
    (generateJWT.claims now1 now2 user).Role = user.Role ∧
    (generateJWT.claims now1 now2 user).Issuer = "auth-api" ∧
    (generateJWT.claims now1 now2 user).ExpiresAt
        = some (time.Truncate now1 time.Second + 24 * time.Hour) ∧
    (generateJWT.claims now1 now2 user).IssuedAt = some (time.Truncate now2 time.Second) ∧
    ((generateJWT.claims now1 now2 user).ExpiresAt
        = (generateJWT.claims now1 now2 user).IssuedAt.map (fun t => t + 24 * time.Hour)
      ↔ now1 / time.Second = now2 / time.Second) := by
  refine ⟨rfl, rfl, rfl, rfl, rfl, ?_, rfl, ?_⟩
  · simp only [generateJWT.claims, truncate_add_day]; rfl
  · simp only [generateJWT.claims, truncate_add_day, Option.map_some', Option.some.injEq,
      add_left_inj]
    exact truncate_eq_iff now1 now2

/-! ## Login -/

/-- C2: in any store state, a login with a nik that is not in the store and
a login with a registered nik and a password different from the stored one
(all four strings non-empty) get the same response, 401 with the same error
body, and both leave the user map and the counter as they were. -/
theorem loginHandler_unknown_or_wrong_password
    (S1 S2 : Claims → Option String) (a1 b1 a2 b2 : time.Time) (st : Store)
    (r1 r2 : Request) (q1 q2 : LoginRequest) (u : User)
    (hm1 : r1.Method = "POST") (hm2 : r2.Method = "POST")
    (hb1 : r1.Body.asLogin = some q1) (hb2 : r2.Body.asLogin = some q2)
    (hn1 : q1.NIK ≠ "") (hp1 : q1.Password ≠ "")
    (hn2 : q2.NIK ≠ "") (hp2 : q2.Password ≠ "")
    (hunknown : st.users q1.NIK = none)
    (hknown : st.users q2.NIK = some u) (hwrong : u.Password ≠ q2.Password) :
    loginHandler S1 a1 b1 st ResponseWriter.fresh r1
        = some (st, jsonResponse 401 (.error ⟨"unauthorized", "NIK atau Password salah"⟩)) ∧
    loginHandler S2 a2 b2 st ResponseWriter.fresh r2
        = some (st, jsonResponse 401 (.error ⟨"unauthorized", "NIK atau Password salah"⟩)) := by
  constructor
  · simp [loginHandler, http.MethodPost, hm1, hb1, hn1, hp1, hunknown, fresh_reply,
      http.StatusUnauthorized]
  · simp [loginHandler, http.MethodPost, hm2, hb2, hn2, hp2, hknown, hwrong, fresh_reply,
      http.StatusUnauthorized]

theorem loginHandler_unknown_or_wrong_password_witness :
    loginHandler sampleSign 0 0 (step Store.init (.register id (registerRequest "123" "user")))
        ResponseWriter.fresh (loginRequest "999" "abcdef")
        = some (step Store.init (.register id (registerRequest "123" "user")),
            jsonResponse 401 (.error ⟨"unauthorized", "NIK atau Password salah"⟩)) ∧
    loginHandler sampleSign 5 7 (step Store.init (.register id (registerRequest "123" "user")))
        ResponseWriter.fresh (loginRequest "123" "xxxxxx")
        = some (step Store.init (.register id (registerRequest "123" "user")),
            jsonResponse 401 (.error ⟨"unauthorized", "NIK atau Password salah"⟩)) :=
  loginHandler_unknown_or_wrong_password sampleSign sampleSign 0 0 5 7
    (step Store.init (.register id (registerRequest "123" "user")))
    (loginRequest "999" "abcdef") (loginRequest "123" "xxxxxx")
    ⟨"999", "abcdef"⟩ ⟨"123", "xxxxxx"⟩ ⟨1, "123", "user", "abcdef"⟩
    rfl rfl rfl rfl (by decide) (by decide) (by decide) (by decide) (by decide) (by decide)
    (by decide)

/-! ## The identity store under request sequences -/

/-- The three ways a call of `registerHandler` on a new writer can end: a
panic, an answer other than 201 with the store as it was, or 201 with the new
record inserted and the counter advanced. -/
theorem registerHandler_cases (rnd : Nat → Nat) (st : Store) (r : Request) :
    registerHandler rnd st ResponseWriter.fresh r = none ∨
    (∃ w, registerHandler rnd st ResponseWriter.fresh r = some (st, w) ∧
      w.status ≠ some 201) ∨
    (∃ req pw, r.Method = "POST" ∧ r.Body.asRegister = some req ∧ req.NIK ≠ "" ∧
      req.Role ≠ "" ∧ st.users req.NIK = none ∧ generatePassword rnd = some pw ∧
      registerHandler rnd st ResponseWriter.fresh r
        = some (⟨fun k => if k = req.NIK then some ⟨st.userCounter, req.NIK, req.Role, pw⟩
                  else st.users k, st.userCounter + 1⟩,
                jsonResponse 201 (.register
                  ⟨st.userCounter, req.NIK, req.Role, pw, "User berhasil didaftarkan"⟩))) := by
  by_cases hm : r.Method = "POST"
  · cases hb : r.Body.asRegister with
    | none =>
      refine Or.inr (Or.inl ?_)
      simp only [registerHandler, http.MethodPost, hm, hb, fresh_reply]
      exact ⟨_, rfl, by simp [jsonResponse, http.StatusBadRequest]⟩
    | some req =>
      by_cases he : req.NIK = "" ∨ req.Role = ""
      · refine Or.inr (Or.inl ?_)
        simp only [registerHandler, http.MethodPost, hm, hb, he, fresh_reply]
        exact ⟨_, rfl, by simp [jsonResponse, http.StatusBadRequest]⟩
      · cases hu : st.users req.NIK with
        | some u =>
          refine Or.inr (Or.inl ?_)
          simp only [registerHandler, http.MethodPost, hm, hb, he, hu, fresh_reply]
          exact ⟨_, rfl, by simp [jsonResponse, http.StatusConflict]⟩
        | none =>
          cases hp : generatePassword rnd with
          | none =>
            left
            simp [registerHandler, http.MethodPost, hm, hb, he, hu, hp]
          | some pw =>
            refine Or.inr (Or.inr ⟨req, pw, hm, rfl, ?_, ?_, hu, rfl, ?_⟩)
            · exact fun h => he (Or.inl h)
            · exact fun h => he (Or.inr h)
            · simp [registerHandler, http.MethodPost, hm, hb, he, hu, hp, fresh_reply,
                http.StatusCreated]
  · refine Or.inr (Or.inl ?_)
    simp only [registerHandler, http.MethodPost, fresh_reply]
    rw [if_pos hm]
    exact ⟨_, rfl, by simp [jsonResponse, http.StatusMethodNotAllowed]⟩

theorem loginHandler_store (S : Claims → Option String) (a b : time.Time) (st : Store)
    (r : Request) :
    ∃ w, loginHandler S a b st ResponseWriter.fresh r = some (st, w) ∧ w.status ≠ some 201 := by
  unfold loginHandler
  simp only [fresh_reply]
  split
  · exact ⟨_, rfl, by simp [jsonResponse, http.StatusMethodNotAllowed]⟩
  · split
    · exact ⟨_, rfl, by simp [jsonResponse, http.StatusBadRequest]⟩
    · split
      · exact ⟨_, rfl, by simp [jsonResponse, http.StatusBadRequest]⟩
      · split
        · exact ⟨_, rfl, by simp [jsonResponse, http.StatusUnauthorized]⟩
        · split
          · exact ⟨_, rfl, by simp [jsonResponse, http.StatusUnauthorized]⟩
          · split
            · exact ⟨_, rfl, by simp [jsonResponse, http.StatusInternalServerError]⟩
            · exact ⟨_, rfl, by simp [jsonResponse, http.StatusOK]⟩

theorem created_register (rnd : Nat → Nat) (st : Store) (r : Request)
    (h : (Event.register rnd r).created st = true) :
    ∃ req pw, r.Method = "POST" ∧ r.Body.asRegister = some req ∧ req.NIK ≠ "" ∧
      req.Role ≠ "" ∧ st.users req.NIK = none ∧ generatePassword rnd = some pw ∧
      (Event.register rnd r).serve st
        = some (⟨fun k => if k = req.NIK then some ⟨st.userCounter, req.NIK, req.Role, pw⟩
                  else st.users k, st.userCounter + 1⟩,
                jsonResponse 201 (.register
                  ⟨st.userCounter, req.NIK, req.Role, pw, "User berhasil didaftarkan"⟩)) := by
  rcases registerHandler_cases rnd st r with hn | ⟨w, hw, hs⟩ | h3
  · simp [Event.created, Event.serve, hn] at h
  · simp [Event.created, Event.serve, hw, http.StatusCreated] at h
    exact absurd h hs
  · exact h3

theorem not_created_step (st : Store) (e : Event) (h : e.created st = false) :
    step st e = st := by
  cases e with
  | register rnd r =>
    rcases registerHandler_cases rnd st r with hn | ⟨w, hw, _⟩ | ⟨req, pw, _, _, _, _, _, _, h3⟩
    · simp [step, Event.serve, hn]
    · simp [step, Event.serve, hw]
    · simp [Event.created, Event.serve, h3, jsonResponse, http.StatusCreated] at h
  | login S a b r =>
    obtain ⟨w, hw, _⟩ := loginHandler_store S a b st r
    simp [step, Event.serve, hw]

theorem created_step (st : Store) (e : Event) (h : e.created st = true) :
    ∃ rnd r req pw, e = .register rnd r ∧ r.Body.asRegister = some req ∧
      st.users req.NIK = none ∧
      step st e = ⟨fun k => if k = req.NIK then some ⟨st.userCounter, req.NIK, req.Role, pw⟩
                    else st.users k, st.userCounter + 1⟩ := by
  cases e with
  | register rnd r =>
    obtain ⟨req, pw, _, hb, _, _, hu, _, hs⟩ := created_register rnd st r h
    exact ⟨rnd, r, req, pw, rfl, hb, hu, by simp [step, hs]⟩
  | login S a b r =>
    obtain ⟨w, hw, hs⟩ := loginHandler_store S a b st r
    simp [Event.created, Event.serve, hw, http.StatusCreated] at h
    exact absurd h hs

theorem step_users_mono (st : Store) (e : Event) (k : String) (u : User)
    (h : st.users k = some u) : (step st e).users k = some u := by
  cases hc : e.created st with
  | false => rw [not_created_step st e hc]; exact h
  | true =>
    obtain ⟨rnd, r, req, pw, _, _, hu, hs⟩ := created_step st e hc
    have hk : k ≠ req.NIK := by
      rintro rfl
      rw [hu] at h
      exact Option.noConfusion h
    rw [hs]
    simp [hk, h]

theorem run_users_mono (es : List Event) (st : Store) (k : String) (u : User)
    (h : st.users k = some u) : (run st es).users k = some u := by
  induction es generalizing st with
  | nil => exact h
  | cons e es ih => exact ih (step st e) (step_users_mono st e k u h)

theorem step_inv (st : Store) (e : Event) (h : st.Inv) :
    (step st e).Inv ∧
      (step st e).userCounter = st.userCounter + (if e.created st then 1 else 0) := by
  cases hc : e.created st with
  | false =>
    rw [not_created_step st e hc]
    exact ⟨h, by simp⟩
  | true =>
    obtain ⟨rnd, r, req, pw, _, _, hu, hs⟩ := created_step st e hc
    obtain ⟨h1, h2, h3⟩ := h
    rw [hs]
    refine ⟨⟨?_, ?_, ?_⟩, by simp⟩
    · show 1 ≤ st.userCounter + 1
      omega
    · intro k u hk
      show u.NIK = k ∧ 1 ≤ u.ID ∧ u.ID < st.userCounter + 1
      by_cases hkn : k = req.NIK
      · simp only [hkn, if_true, Option.some.injEq] at hk
        subst hk
        exact ⟨hkn.symm, h1, by show st.userCounter < st.userCounter + 1; omega⟩
      · simp only [hkn, if_false] at hk
        obtain ⟨a, b, c⟩ := h2 k u hk
        exact ⟨a, b, by omega⟩
    · intro k1 k2 u1 u2 hk1 hk2 hid
      by_cases e1 : k1 = req.NIK <;> by_cases e2 : k2 = req.NIK
      · rw [e1, e2]
      · simp only [e1, if_true, Option.some.injEq] at hk1
        simp only [e2, if_false] at hk2
        subst hk1
        have := (h2 k2 u2 hk2).2.2
        simp only at hid
        omega
      · simp only [e2, if_true, Option.some.injEq] at hk2
        simp only [e1, if_false] at hk1
        subst hk2
        have := (h2 k1 u1 hk1).2.2
        simp only at hid
        omega
      · simp only [e1, if_false] at hk1
        simp only [e2, if_false] at hk2
        exact h3 k1 k2 u1 u2 hk1 hk2 hid

theorem run_inv (es : List Event) (st : Store) (h : st.Inv) :
    (run st es).Inv ∧ (run st es).userCounter = st.userCounter + countCreated st es := by
  induction es generalizing st with
  | nil => exact ⟨h, by simp [run, countCreated]⟩
  | cons e es ih =>
    obtain ⟨hinv, hcnt⟩ := step_inv st e h
    obtain ⟨hinv2, hcnt2⟩ := ih (step st e) hinv
    refine ⟨hinv2, ?_⟩
    show (run (step st e) es).userCounter = _
    rw [hcnt2, hcnt]
    simp only [countCreated]
    split <;> push_cast <;> omega

theorem init_inv : Store.init.Inv :=
  ⟨le_refl _, fun _ _ h => Option.noConfusion h, fun _ _ _ _ h => Option.noConfusion h⟩

theorem generatePassword_loop_length (rnd : Nat → Nat) (is : List Nat) (cs : List Char)
    (h : generatePassword.loop rnd is = some cs) : cs.length = is.length := by
  induction is generalizing cs with
  | nil =>
    simp only [generatePassword.loop, Option.some.injEq] at h
    subst h
    rfl
  | cons i is ih =>
    rw [generatePassword.loop] at h
    cases hc : charset.data.get? (rnd i) with
    | none => rw [hc] at h; exact Option.noConfusion h
    | some c =>
      rw [hc] at h
      cases hl : generatePassword.loop rnd is with
      | none => rw [hl] at h; exact Option.noConfusion h
      | some ds =>
        rw [hl] at h
        simp only [Option.map_some', Option.some.injEq] at h
        subst h
        simp [ih ds hl]

theorem generatePassword_length (rnd : Nat → Nat) (pw : String)
    (h : generatePassword rnd = some pw) : pw.length = 6 := by
  unfold generatePassword at h
  cases hl : generatePassword.loop rnd (List.range 6) with
  | none => rw [hl] at h; exact Option.noConfusion h
  | some cs =>
    rw [hl] at h
    simp only [Option.map_some', Option.some.injEq] at h
    subst h
    simpa using generatePassword_loop_length rnd _ cs hl

/-- C3: in any store state (reachable or not), once a register request for
a nik has been answered 201 Created, every later register request with the
same nik and a non-empty role, after any sequence of register and login
requests in between, is answered 409 Conflict and leaves the user map and
the id counter exactly as they were before that request. -/
theorem registerHandler_conflict_after_created (st : Store) (rnd : Nat → Nat) (r : Request)
    (req : RegisterRequest) (hb : r.Body.asRegister = some req)
    (hc : (Event.register rnd r).created st = true)
    (es : List Event) (rnd2 : Nat → Nat) (r2 : Request) (req2 : RegisterRequest)
    (hm2 : r2.Method = "POST") (hb2 : r2.Body.asRegister = some req2)
    (hnik : req2.NIK = req.NIK) (hrole : req2.Role ≠ "") :
    registerHandler rnd2 (run st (.register rnd r :: es)) ResponseWriter.fresh r2
      = some (run st (.register rnd r :: es),
          jsonResponse 409 (.error ⟨"conflict", "NIK sudah terdaftar"⟩)) := by
  obtain ⟨req1, pw, _, hb1, hn, _, _, _, hs⟩ := created_register rnd st r hc
  have hreq : req1 = req := by
    rw [hb] at hb1
    exact (Option.some.inj hb1).symm
  subst hreq
  have h1 : (step st (.register rnd r)).users req1.NIK
      = some ⟨st.userCounter, req1.NIK, req1.Role, pw⟩ := by
    simp [step, hs]
  have h2 := run_users_mono es _ _ _ h1
  have h3 : (run st (.register rnd r :: es)).users req2.NIK
      = some ⟨st.userCounter, req1.NIK, req1.Role, pw⟩ := by
    rw [hnik]; exact h2
  have hn2 : req2.NIK ≠ "" := by rw [hnik]; exact hn
  simp [registerHandler, http.MethodPost, hm2, hb2, hn2, hrole, h3, fresh_reply,
    http.StatusConflict]

theorem registerHandler_conflict_after_created_witness :
    registerHandler (fun i => i + 7)
        (run Store.init [.register id (registerRequest "123" "user"),
          .login sampleSign 0 0 (loginRequest "123" "abcdef"),
          .register id (registerRequest "456" "admin")])
        ResponseWriter.fresh (registerRequest "123" "admin")
      = some (run Store.init [.register id (registerRequest "123" "user"),
          .login sampleSign 0 0 (loginRequest "123" "abcdef"),
          .register id (registerRequest "456" "admin")],
          jsonResponse 409 (.error ⟨"conflict", "NIK sudah terdaftar"⟩)) :=
  registerHandler_conflict_after_created Store.init id (registerRequest "123" "user")
    ⟨"123", "user"⟩ rfl (by decide)
    [.login sampleSign 0 0 (loginRequest "123" "abcdef"),
      .register id (registerRequest "456" "admin")]
    (fun i => i + 7) (registerRequest "123" "admin") ⟨"123", "admin"⟩ rfl rfl rfl (by decide)

/-- C4: in any store state in which the non-empty nik `k` is absent, if a
register request for `k` with a non-empty role is answered 201 with id `i`
and password `p`, then after any sequence of further register and login
requests the store still holds exactly the record (`i`, `k`, role, `p`)
under `k`, and a login with `k` and `p` passes the credential check: it is
answered 200 with id `i`, nik `k`, the same role and the token when signing
succeeds, and 500 when signing fails; the store is unchanged by it. (That `k`
was absent and the role non-empty follows from the answer 201.) -/
theorem loginHandler_after_created (st : Store) (rnd : Nat → Nat) (r : Request)
    (k role p : String) (i : Int)
    (hb : r.Body.asRegister = some ⟨k, role⟩) (hk : k ≠ "")
    (hret : ((Event.register rnd r).serve st).map (fun x => (x.2.status, x.2.body))
      = some (some 201, [.register ⟨i, k, role, p, "User berhasil didaftarkan"⟩]))
    (es : List Event) (S : Claims → Option String) (now1 now2 : time.Time) (rl : Request)
    (hml : rl.Method = "POST") (hbl : rl.Body.asLogin = some ⟨k, p⟩) :
    (run st (.register rnd r :: es)).users k = some ⟨i, k, role, p⟩ ∧
    loginHandler S now1 now2 (run st (.register rnd r :: es)) ResponseWriter.fresh rl
      = some (run st (.register rnd r :: es),
          match S (generateJWT.claims now1 now2 ⟨i, k, role, p⟩) with
          | some token => jsonResponse 200 (.login ⟨i, k, role, token, "Login berhasil"⟩)
          | none => jsonResponse 500 (.error ⟨"internal_error", "Gagal membuat token"⟩)) := by
  have hc : (Event.register rnd r).created st = true := by
    cases hs : (Event.register rnd r).serve st with
    | none => simp [hs] at hret
    | some x =>
      simp only [hs, Option.map_some', Option.some.injEq, Prod.mk.injEq] at hret
      simp [Event.created, hs, hret.1, http.StatusCreated]
  obtain ⟨req1, pw, _, hb1, _, _, _, hpw, hs⟩ := created_register rnd st r hc
  have hreq : req1 = ⟨k, role⟩ := by
    rw [hb] at hb1
    exact (Option.some.inj hb1).symm
  subst hreq
  simp only [hs, Option.map_some', jsonResponse, Option.some.injEq, Prod.mk.injEq,
    List.cons.injEq, Payload.register.injEq, RegisterResponse.mk.injEq, and_true,
    true_and] at hret
  obtain ⟨hi, hp⟩ := hret
  subst hi hp
  have h1 : (step st (.register rnd r)).users k = some ⟨st.userCounter, k, role, pw⟩ := by
    simp [step, hs]
  have h2 : (run st (.register rnd r :: es)).users k = some ⟨st.userCounter, k, role, pw⟩ :=
    run_users_mono es _ _ _ h1
  have hpne : pw ≠ "" := by
    intro he
    have := generatePassword_length rnd pw hpw
    rw [he] at this
    exact absurd this (by decide)
  refine ⟨h2, ?_⟩
  simp only [loginHandler, http.MethodPost, hml, hbl, h2, fresh_reply, generateJWT]
  simp [hk, hpne]
  cases S (generateJWT.claims now1 now2 ⟨st.userCounter, k, role, pw⟩) <;>
    simp [http.StatusInternalServerError, http.StatusOK]


theorem loginHandler_after_created_witness :
    (run Store.init [.register id (registerRequest "123" "user"),
        .register id (registerRequest "123" "admin"),
        .login sampleSign 0 0 (loginRequest "123" "zzzzzz")]).users "123"
      = some ⟨1, "123", "user", "abcdef"⟩ ∧
    loginHandler sampleSign 3 4
        (run Store.init [.register id (registerRequest "123" "user"),
          .register id (registerRequest "123" "admin"),
          .login sampleSign 0 0 (loginRequest "123" "zzzzzz")])
        ResponseWriter.fresh (loginRequest "123" "abcdef")
      = some (run Store.init [.register id (registerRequest "123" "user"),
          .register id (registerRequest "123" "admin"),
          .login sampleSign 0 0 (loginRequest "123" "zzzzzz")],
          match sampleSign (generateJWT.claims 3 4 ⟨1, "123", "user", "abcdef"⟩) with
          | some token => jsonResponse 200 (.login ⟨1, "123", "user", token, "Login berhasil"⟩)
          | none => jsonResponse 500 (.error ⟨"internal_error", "Gagal membuat token"⟩)) :=
  loginHandler_after_created Store.init id (registerRequest "123" "user") "123" "user" "abcdef" 1
    rfl (by decide) (by decide)
    [.register id (registerRequest "123" "admin"),
      .login sampleSign 0 0 (loginRequest "123" "zzzzzz")]
    sampleSign 3 4 (loginRequest "123" "abcdef") rfl rfl

theorem run_append (st : Store) (es : List Event) (e : Event) :
    run st (es ++ [e]) = step (run st es) e := by
  simp [run, List.foldl_append]

theorem countCreated_append (es : List Event) (st : Store) (e : Event) :
    countCreated st (es ++ [e])
      = countCreated st es + (if e.created (run st es) then 1 else 0) := by
  induction es generalizing st with
  | nil => simp [countCreated, run]
  | cons a es ih =>
    show (if a.created st then 1 else 0) + countCreated (step st a) (es ++ [e])
      = ((if a.created st then 1 else 0) + countCreated (step st a) es)
        + (if e.created (run (step st a) es) then 1 else 0)
    rw [ih (step st a)]
    omega

/-- C5: in every state reachable from the initial state (empty user map,
counter 1) by a sequence of register and login requests, the record stored
under key `k` has NIK `k`, every stored id is at least 1 and less than the
counter, no two keys hold records with the same id, the counter is one more
than the number of registrations answered 201 so far, and a registration
answered 201 in that state is given the id equal to its rank among the
successful registrations (number of earlier ones plus one) and stored under
its nik with that id. -/
theorem store_invariant (es : List Event) :
    (∀ k u, (run Store.init es).users k = some u →
      u.NIK = k ∧ 1 ≤ u.ID ∧ u.ID < (run Store.init es).userCounter) ∧
    (∀ k1 k2 u1 u2, (run Store.init es).users k1 = some u1 →
      (run Store.init es).users k2 = some u2 → u1.ID = u2.ID → k1 = k2) ∧
    (run Store.init es).userCounter = countCreated Store.init es + 1 ∧
    (∀ rnd r, (Event.register rnd r).created (run Store.init es) = true →
      ∃ req pw, r.Body.asRegister = some req ∧
        ((Event.register rnd r).serve (run Store.init es)).map (fun x => x.2)
          = some (jsonResponse 201 (.register ⟨countCreated Store.init es + 1, req.NIK,
              req.Role, pw, "User berhasil didaftarkan"⟩)) ∧
        (run Store.init (es ++ [.register rnd r])).users req.NIK
          = some ⟨countCreated Store.init es + 1, req.NIK, req.Role, pw⟩ ∧
        countCreated Store.init (es ++ [.register rnd r]) = countCreated Store.init es + 1) := by
  obtain ⟨⟨_, h2, h3⟩, hcnt⟩ := run_inv es Store.init init_inv
  have hcnt1 : (run Store.init es).userCounter = countCreated Store.init es + 1 := by
    rw [hcnt]
    show (1 : Int) + _ = _
    omega
  refine ⟨h2, h3, hcnt1, ?_⟩
  intro rnd r hc
  obtain ⟨req, pw, _, hb, _, _, _, _, hs⟩ := created_register rnd _ r hc
  refine ⟨req, pw, hb, ?_, ?_, ?_⟩
  · rw [hs, ← hcnt1]; rfl
  · have : run Store.init (es ++ [.register rnd r])
        = step (run Store.init es) (.register rnd r) := by
      simp [run, List.foldl_append]
    rw [this, ← hcnt1]
    simp [step, hs]
  · rw [countCreated_append, hc]
    rfl


theorem store_invariant_witness :
    (Event.register id (registerRequest "456" "admin")).created
        (run Store.init [.register id (registerRequest "123" "user"),
          .register id (registerRequest "123" "user")]) = true ∧
    ∃ req pw, (registerRequest "456" "admin").Body.asRegister = some req ∧
      ((Event.register id (registerRequest "456" "admin")).serve
          (run Store.init [.register id (registerRequest "123" "user"),
            .register id (registerRequest "123" "user")])).map (fun x => x.2)
        = some (jsonResponse 201 (.register
            ⟨countCreated Store.init [.register id (registerRequest "123" "user"),
              .register id (registerRequest "123" "user")] + 1, req.NIK,
              req.Role, pw, "User berhasil didaftarkan"⟩)) ∧
      (run Store.init ([.register id (registerRequest "123" "user"),
          .register id (registerRequest "123" "user")]
          ++ [.register id (registerRequest "456" "admin")])).users req.NIK
        = some ⟨countCreated Store.init [.register id (registerRequest "123" "user"),
            .register id (registerRequest "123" "user")] + 1, req.NIK, req.Role, pw⟩ ∧
      countCreated Store.init ([.register id (registerRequest "123" "user"),
          .register id (registerRequest "123" "user")]
          ++ [.register id (registerRequest "456" "admin")])
        = countCreated Store.init [.register id (registerRequest "123" "user"),
            .register id (registerRequest "123" "user")] + 1 :=
  ⟨by decide,
    (store_invariant [.register id (registerRequest "123" "user"),
      .register id (registerRequest "123" "user")]).2.2.2 id
      (registerRequest "456" "admin") (by decide)⟩

/-! ## Decimal rendering and parsing -/

theorem digitChar_isDigit (d : Nat) (h : d < 10) :
    (strconv.digitChar d).isDigit = true ∧ (strconv.digitChar d).toNat - 48 = d ∧
      strconv.digitChar d ≠ '-' ∧ strconv.digitChar d ≠ '+' := by
  interval_cases d <;> decide

theorem formatLoop_head (fuel n : Nat) (acc : List Char) (h : n < fuel) :
    ∃ d rest, d < 10 ∧ strconv.formatLoop fuel n acc = strconv.digitChar d :: rest := by
  induction fuel generalizing n acc with
  | zero => exact absurd h (Nat.not_lt_zero _)
  | succ fuel ih =>
    rw [strconv.formatLoop]
    by_cases hn : n < 10
    · rw [if_pos hn]
      exact ⟨n, acc, hn, rfl⟩
    · rw [if_neg hn]
      exact ih (n / 10) _ (by omega)

/-- The digit-accumulating step of `parseDigits`. -/
theorem parseStep_digit (a d : Nat) (h : d < 10) (cs : List Char) :
    List.foldl
        (fun acc c => acc.bind fun n =>
          if c.isDigit then some (n * 10 + (c.toNat - 48)) else none)
        (some a) (strconv.digitChar d :: cs)
      = List.foldl
        (fun acc c => acc.bind fun n =>
          if c.isDigit then some (n * 10 + (c.toNat - 48)) else none)
        (some (a * 10 + d)) cs := by
  obtain ⟨h1, h2, _, _⟩ := digitChar_isDigit d h
  simp [List.foldl, h1, h2]

theorem formatLoop_fold (fuel n : Nat) (acc : List Char) (h : n < fuel) :
    List.foldl
        (fun acc c => acc.bind fun n =>
          if c.isDigit then some (n * 10 + (c.toNat - 48)) else none)
        (some 0) (strconv.formatLoop fuel n acc)
      = List.foldl
        (fun acc c => acc.bind fun n =>
          if c.isDigit then some (n * 10 + (c.toNat - 48)) else none)
        (some n) acc := by
  induction fuel generalizing n acc with
  | zero => exact absurd h (Nat.not_lt_zero _)
  | succ fuel ih =>
    rw [strconv.formatLoop]
    by_cases hn : n < 10
    · rw [if_pos hn, parseStep_digit 0 n hn]
      simp
    · rw [if_neg hn, ih (n / 10) _ (by omega), parseStep_digit _ _ (Nat.mod_lt n (by omega))]
      congr 2
      omega

theorem parseDigits_natDigits (n : Nat) :
    strconv.parseDigits (strconv.natDigits n) = some n := by
  obtain ⟨d, rest, _, hd⟩ := formatLoop_head (n + 1) n [] (Nat.lt_succ_self n)
  have hne : strconv.natDigits n ≠ [] := by
    rw [strconv.natDigits, hd]; exact List.cons_ne_nil _ _
  rw [strconv.parseDigits, if_neg hne, strconv.natDigits,
    formatLoop_fold (n + 1) n [] (Nat.lt_succ_self n)]
  rfl

/-- Parsing the decimal rendering of a 64-bit integer gives the integer back,
without error. -/
theorem Atoi_Itoa (i : Int) (hlo : strconv.minInt ≤ i) (hhi : i ≤ strconv.maxInt) :
    strconv.Atoi (strconv.Itoa i) = (i, false) := by
  by_cases hneg : i < 0
  · have hd : (strconv.Itoa i).data = '-' :: strconv.natDigits i.natAbs := by
      rw [strconv.Itoa, if_pos hneg]
    have habs : -((i.natAbs : Nat) : Int) = i := by omega
    have hge : ¬ (-((i.natAbs : Nat) : Int) < strconv.minInt) := by
      rw [habs]; exact not_lt.mpr hlo
    simp only [strconv.Atoi, hd, List.head?_cons, true_or, if_true, List.tail_cons,
      parseDigits_natDigits, decide_True, Bool.not_true, Bool.false_and, Bool.true_and,
      decide_eq_true_eq, hge, if_false, habs]
    simpa using hlo
  · obtain ⟨d, rest, hd10, hd⟩ :=
      formatLoop_head (i.natAbs + 1) i.natAbs [] (Nat.lt_succ_self _)
    obtain ⟨_, _, hm, hp⟩ := digitChar_isDigit d hd10
    have hdata : (strconv.Itoa i).data = strconv.natDigits i.natAbs := by
      rw [strconv.Itoa, if_neg hneg]
    have hhead : (strconv.natDigits i.natAbs).head? = some (strconv.digitChar d) := by
      rw [strconv.natDigits, hd]; rfl
    have habs : ((i.natAbs : Nat) : Int) = i := by omega
    have hle : ¬ (((i.natAbs : Nat) : Int) > strconv.maxInt) := by
      rw [habs]; exact not_lt.mpr hhi
    simp only [strconv.Atoi, hdata, hhead, Option.some.injEq, hm, hp, or_self, if_false,
      parseDigits_natDigits, decide_False, Bool.not_false, Bool.true_and, Bool.false_and,
      decide_eq_true_eq, hle, habs]
    simpa using hhi

/-! ## The access gate -/

theorem validateJWT_accept (P : String → Option Claims) (next : HandlerFunc) (st : Store)
    (w : ResponseWriter) (r : Request) (claims : Claims)
    (hne : http.Header.Get r.Header "Authorization" ≠ "")
    (hlen : (strings.Split (http.Header.Get r.Header "Authorization") ' ').length = 2)
    (hbearer : (strings.Split (http.Header.Get r.Header "Authorization") ' ').getD 0 ""
      = "Bearer")
    (hP : P ((strings.Split (http.Header.Get r.Header "Authorization") ' ').getD 1 "")
      = some claims) :
    validateJWT P next st w r = next st w (validateJWT.forwarded r claims) := by
  simp only [validateJWT, if_neg hne, hlen, hbearer, hP, ne_eq, not_true_eq_false, or_self,
    if_false]
  rfl

theorem validateJWT_reject (P : String → Option Claims) (next : HandlerFunc) (st : Store)
    (r : Request)
    (h : ¬ (http.Header.Get r.Header "Authorization" ≠ "" ∧
      (strings.Split (http.Header.Get r.Header "Authorization") ' ').length = 2 ∧
      (strings.Split (http.Header.Get r.Header "Authorization") ' ').getD 0 "" = "Bearer" ∧
      (P ((strings.Split (http.Header.Get r.Header "Authorization") ' ').getD 1 "")).isSome
        = true)) :
    validateJWT P next st ResponseWriter.fresh r
      = some (st, jsonResponse 401 (.error ⟨"unauthorized",
          if http.Header.Get r.Header "Authorization" = "" then "Token tidak ditemukan"
          else if (strings.Split (http.Header.Get r.Header "Authorization") ' ').length ≠ 2 ∨
              (strings.Split (http.Header.Get r.Header "Authorization") ' ').getD 0 ""
                ≠ "Bearer" then
            "Format token tidak valid"
          else "Token tidak valid"⟩)) := by
  simp only [validateJWT, fresh_reply, http.StatusUnauthorized]
  by_cases h1 : http.Header.Get r.Header "Authorization" = ""
  · rw [if_pos h1, if_pos h1]
  · rw [if_neg h1, if_neg h1]
    by_cases h2 : (strings.Split (http.Header.Get r.Header "Authorization") ' ').length ≠ 2 ∨
        (strings.Split (http.Header.Get r.Header "Authorization") ' ').getD 0 "" ≠ "Bearer"
    · rw [if_pos h2, if_pos h2]
    · rw [if_neg h2, if_neg h2]
      have h2' := not_or.mp h2
      have hl := not_not.mp h2'.1
      have hb := not_not.mp h2'.2
      cases hP : P ((strings.Split (http.Header.Get r.Header "Authorization") ' ').getD 1 "")
        with
      | none => rfl
      | some c => exact absurd ⟨h1, hl, hb, by rw [hP]; rfl⟩ h

/-- C1: for every request, `validateJWT` invokes the wrapped handler if and
only if the Authorization header is non-empty, splitting it on a single space
gives exactly two parts, the first part is exactly "Bearer" and the second
part verifies. When it does, the result is the wrapped handler's, whatever
the handler; otherwise no handler is invoked (the result is the same for
every handler, and a handler that panics on every call does not panic), the
store is unchanged and the response is 401 with error "unauthorized" and the
message "Token tidak ditemukan" for a missing header, else "Format token
tidak valid" for a malformed one, else "Token tidak valid". -/
theorem validateJWT_invokes_iff (P : String → Option Claims) (st : Store) (r : Request) :
    ((http.Header.Get r.Header "Authorization" ≠ "" ∧
        (strings.Split (http.Header.Get r.Header "Authorization") ' ').length = 2 ∧
        (strings.Split (http.Header.Get r.Header "Authorization") ' ').getD 0 "" = "Bearer" ∧
        (P ((strings.Split (http.Header.Get r.Header "Authorization") ' ').getD 1 "")).isSome
          = true) ↔
      validateJWT P panicHandler st ResponseWriter.fresh r = none) ∧
    ((http.Header.Get r.Header "Authorization" ≠ "" ∧
        (strings.Split (http.Header.Get r.Header "Authorization") ' ').length = 2 ∧
        (strings.Split (http.Header.Get r.Header "Authorization") ' ').getD 0 "" = "Bearer" ∧
        (P ((strings.Split (http.Header.Get r.Header "Authorization") ' ').getD 1 "")).isSome
          = true) →
      ∃ claims,
        P ((strings.Split (http.Header.Get r.Header "Authorization") ' ').getD 1 "")
          = some claims ∧
        ∀ (next : HandlerFunc) (w : ResponseWriter),
          validateJWT P next st w r = next st w (validateJWT.forwarded r claims)) ∧
    (¬ (http.Header.Get r.Header "Authorization" ≠ "" ∧
        (strings.Split (http.Header.Get r.Header "Authorization") ' ').length = 2 ∧
        (strings.Split (http.Header.Get r.Header "Authorization") ' ').getD 0 "" = "Bearer" ∧
        (P ((strings.Split (http.Header.Get r.Header "Authorization") ' ').getD 1 "")).isSome
          = true) →
      ∀ next : HandlerFunc,
        validateJWT P next st ResponseWriter.fresh r
          = some (st, jsonResponse 401 (.error ⟨"unauthorized",
              if http.Header.Get r.Header "Authorization" = "" then "Token tidak ditemukan"
              else if
                  (strings.Split (http.Header.Get r.Header "Authorization") ' ').length ≠ 2 ∨
                  (strings.Split (http.Header.Get r.Header "Authorization") ' ').getD 0 ""
                    ≠ "Bearer" then
                "Format token tidak valid"
              else "Token tidak valid"⟩))) := by
  have hacc : (http.Header.Get r.Header "Authorization" ≠ "" ∧
        (strings.Split (http.Header.Get r.Header "Authorization") ' ').length = 2 ∧
        (strings.Split (http.Header.Get r.Header "Authorization") ' ').getD 0 "" = "Bearer" ∧
        (P ((strings.Split (http.Header.Get r.Header "Authorization") ' ').getD 1 "")).isSome
          = true) →
      ∃ claims,
        P ((strings.Split (http.Header.Get r.Header "Authorization") ' ').getD 1 "")
          = some claims ∧
        ∀ (next : HandlerFunc) (w : ResponseWriter),
          validateJWT P next st w r = next st w (validateJWT.forwarded r claims) := by
    rintro ⟨h1, h2, h3, h4⟩
    obtain ⟨c, hc⟩ := Option.isSome_iff_exists.mp h4
    exact ⟨c, hc, fun next w => validateJWT_accept P next st w r c h1 h2 h3 hc⟩
  refine ⟨⟨?_, ?_⟩, hacc, fun h next => validateJWT_reject P next st r h⟩
  · intro h
    obtain ⟨c, _, hc⟩ := hacc h
    rw [hc]
    rfl
  · intro hnone
    by_contra h
    rw [validateJWT_reject P panicHandler st r h] at hnone
    exact Option.noConfusion hnone

theorem validateJWT_invokes_iff_witness :
    (validateJWT sampleParse panicHandler Store.init ResponseWriter.fresh bearerRequest = none) ∧
    (∀ next : HandlerFunc,
      validateJWT sampleParse next Store.init ResponseWriter.fresh
          (mkRequest "GET" (some "Bearer  tok") ⟨none, none⟩)
        = some (Store.init,
            jsonResponse 401 (.error ⟨"unauthorized", "Format token tidak valid"⟩))) :=
  ⟨(validateJWT_invokes_iff sampleParse Store.init bearerRequest).1.mp (by decide),
   (validateJWT_invokes_iff sampleParse Store.init
      (mkRequest "GET" (some "Bearer  tok") ⟨none, none⟩)).2.2 (by decide)⟩

theorem split_empty : strings.Split "" ' ' = [""] := by decide

theorem split_bearer_ne (a tokenString : String)
    (hsplit : strings.Split a ' ' = ["Bearer", tokenString]) : a ≠ "" := by
  intro h
  rw [h, split_empty] at hsplit
  simp at hsplit

theorem canonical_user_id : textproto.CanonicalMIMEHeaderKey "X-User-ID" = "X-User-Id" := by
  decide

theorem canonical_user_nik : textproto.CanonicalMIMEHeaderKey "X-User-NIK" = "X-User-Nik" := by
  decide

theorem canonical_user_role :
    textproto.CanonicalMIMEHeaderKey "X-User-Role" = "X-User-Role" := by
  decide

/-- The header map of the forwarded request, key by key. -/
theorem forwarded_header (r : Request) (claims : Claims) (k : String) :
    (validateJWT.forwarded r claims).Header k
      = if k = "X-User-Role" then some [claims.Role]
        else if k = "X-User-Nik" then some [claims.NIK]
        else if k = "X-User-Id" then some [strconv.Itoa claims.ID]
        else r.Header k := by
  simp only [validateJWT.forwarded, http.Header.Set, canonical_user_id, canonical_user_nik,
    canonical_user_role]

theorem forwarded_get (r : Request) (claims : Claims) :
    http.Header.Get (validateJWT.forwarded r claims).Header "X-User-ID"
        = strconv.Itoa claims.ID ∧
    http.Header.Get (validateJWT.forwarded r claims).Header "X-User-NIK" = claims.NIK ∧
    http.Header.Get (validateJWT.forwarded r claims).Header "X-User-Role" = claims.Role := by
  simp only [http.Header.Get, forwarded_header, canonical_user_id, canonical_user_nik,
    canonical_user_role]
  refine ⟨?_, ?_, ?_⟩ <;> simp

/-- C7: for every claim set the gate accepts (any 64-bit integer id, zero and
negative values included, any nik and role) and whatever headers, `X-User-ID`,
`X-User-NIK` and `X-User-Role` included, the caller put on the incoming GET
request, the response of `validateJWT(profileHandler)` is 200 with id, nik and
role equal to the fields of the verified claim set; parsing the decimal
rendering of the id gives back the id; the response is the same in every
store state and the store is unchanged. -/
theorem profile_through_gate (P : String → Option Claims) (st : Store) (r : Request)
    (tokenString : String) (claims : Claims)
    (hm : r.Method = "GET")
    (hsplit : strings.Split (http.Header.Get r.Header "Authorization") ' '
      = ["Bearer", tokenString])
    (hP : P tokenString = some claims)
    (hlo : strconv.minInt ≤ claims.ID) (hhi : claims.ID ≤ strconv.maxInt) :
    validateJWT P profileHandler st ResponseWriter.fresh r
      = some (st, jsonResponse 200 (.profile
          ⟨claims.ID, claims.NIK, claims.Role, "Data profile berhasil diambil"⟩)) ∧
    strconv.Atoi (strconv.Itoa claims.ID) = (claims.ID, false) := by
  have hne : http.Header.Get r.Header "Authorization" ≠ "" :=
    split_bearer_ne _ _ hsplit
  have hacc := validateJWT_accept P profileHandler st ResponseWriter.fresh r claims hne
    (by rw [hsplit]; rfl) (by rw [hsplit]; rfl) (by rw [hsplit]; exact hP)
  obtain ⟨h1, h2, h3⟩ := forwarded_get r claims
  have hrt := Atoi_Itoa claims.ID hlo hhi
  refine ⟨?_, hrt⟩
  rw [hacc]
  have hm' : (validateJWT.forwarded r claims).Method = http.MethodGet := hm
  simp only [profileHandler, hm', ne_eq, not_true_eq_false, if_false, h1, h2, h3, hrt,
    fresh_reply, http.StatusOK]

theorem profile_through_gate_witness :
    validateJWT (fun t => if t = "tok" then some ⟨-7, "123", "user", none, none, ""⟩ else none)
        profileHandler Store.init ResponseWriter.fresh spoofedRequest
      = some (Store.init, jsonResponse 200 (.profile
          ⟨-7, "123", "user", "Data profile berhasil diambil"⟩)) ∧
    strconv.Atoi (strconv.Itoa (-7)) = (-7, false) :=
  profile_through_gate
    (fun t => if t = "tok" then some ⟨-7, "123", "user", none, none, ""⟩ else none)
    Store.init spoofedRequest "tok" ⟨-7, "123", "user", none, none, ""⟩
    rfl (by decide) (by decide) (by decide) (by decide)

/-- C8: the gate is to hand the verified claim set to the wrapped handler
through the request context and leave the request headers as they came in, as
the comment on line 146 of `main.go` also says. The code does not: for the
accepted request `bearerRequest`, which carries no `X-User-Id` header, the
request handed to the wrapped handler carries `X-User-Id: 1` (and
`X-User-Nik`, `X-User-Role`), so its header set is not the incoming one, and
no request with the incoming header set would make `profileHandler` answer
what it answers behind the gate. -/
theorem validateJWT_headers_counterexample :
    bearerRequest.Header "X-User-Id" = none ∧
    (validateJWT.forwarded bearerRequest
        ⟨1, "123", "user", some 86400000000000, some 0, "auth-api"⟩).Header "X-User-Id"
      = some ["1"] ∧
    (validateJWT.forwarded bearerRequest
        ⟨1, "123", "user", some 86400000000000, some 0, "auth-api"⟩).Header
      ≠ bearerRequest.Header ∧
    validateJWT sampleParse profileHandler Store.init ResponseWriter.fresh bearerRequest
      = profileHandler Store.init ResponseWriter.fresh
          (validateJWT.forwarded bearerRequest
            ⟨1, "123", "user", some 86400000000000, some 0, "auth-api"⟩) ∧
    ¬ ∃ r1 : Request, r1.Header = bearerRequest.Header ∧
        validateJWT sampleParse profileHandler Store.init ResponseWriter.fresh bearerRequest
          = profileHandler Store.init ResponseWriter.fresh r1 := by
  have hfw : (validateJWT.forwarded bearerRequest
        ⟨1, "123", "user", some 86400000000000, some 0, "auth-api"⟩).Header "X-User-Id"
      = some ["1"] := by decide
  have hacc : validateJWT sampleParse profileHandler Store.init ResponseWriter.fresh
        bearerRequest
      = profileHandler Store.init ResponseWriter.fresh
          (validateJWT.forwarded bearerRequest
            ⟨1, "123", "user", some 86400000000000, some 0, "auth-api"⟩) :=
    validateJWT_accept sampleParse profileHandler Store.init ResponseWriter.fresh bearerRequest
      _ (by decide) (by decide) (by decide) (by decide)
  refine ⟨rfl, hfw, ?_, hacc, ?_⟩
  · intro h
    have h2 := congrFun h "X-User-Id"
    rw [hfw] at h2
    exact absurd h2 (by decide)
  · rintro ⟨r1, hh, heq⟩
    have hbody : (validateJWT sampleParse profileHandler Store.init ResponseWriter.fresh
        bearerRequest).map (fun x => x.2.body)
        = some [.profile ⟨1, "123", "user", "Data profile berhasil diambil"⟩] := by decide
    rw [heq] at hbody
    have hg : ∀ key, http.Header.Get r1.Header key = http.Header.Get bearerRequest.Header key :=
      fun key => by rw [hh]
    by_cases hm : r1.Method = "GET"
    · simp only [profileHandler, http.MethodGet, hm, ne_eq, not_true_eq_false, if_false, hg,
        fresh_reply, Option.map_some', jsonResponse] at hbody
      exact absurd hbody (by decide)
    · simp only [profileHandler, http.MethodGet, hm, ne_eq, not_false_eq_true, if_true,
        fresh_reply, Option.map_some', jsonResponse] at hbody
      exact absurd hbody (by decide)

/-! ## Two concurrent registrations -/

/-- The two groups of steps, run one after the other with nothing in
between, are `registerHandler`. -/
theorem registerHandler_eq_check_insert (rnd : Nat → Nat) (st : Store) (w : ResponseWriter)
    (r : Request) :
    registerHandler rnd st w r
      = match registerHandler.check st w r with
        | .inl w1 => some (st, w1)
        | .inr req => registerHandler.insert rnd st w req := by
  unfold registerHandler registerHandler.check registerHandler.insert
  split
  · rfl
  · split
    · rfl
    · split
      · rfl
      · split
        · rfl
        · rfl

theorem check_absent (st : Store) (r : Request) (k role : String)
    (hm : r.Method = "POST") (hb : r.Body.asRegister = some ⟨k, role⟩)
    (hk : k ≠ "") (hrole : role ≠ "") (habs : st.users k = none) :
    registerHandler.check st ResponseWriter.fresh r = .inr ⟨k, role⟩ := by
  simp [registerHandler.check, http.MethodPost, hm, hb, hk, hrole, habs]

theorem check_present (st : Store) (r : Request) (k role : String) (u : User)
    (hm : r.Method = "POST") (hb : r.Body.asRegister = some ⟨k, role⟩)
    (hk : k ≠ "") (hrole : role ≠ "") (hpres : st.users k = some u) :
    registerHandler.check st ResponseWriter.fresh r
      = .inl (jsonResponse 409 (.error ⟨"conflict", "NIK sudah terdaftar"⟩)) := by
  simp [registerHandler.check, http.MethodPost, hm, hb, hk, hrole, hpres, fresh_reply,
    http.StatusConflict]

theorem insert_some (rnd : Nat → Nat) (st : Store) (req : RegisterRequest) (pw : String)
    (hpw : generatePassword rnd = some pw) :
    registerHandler.insert rnd st ResponseWriter.fresh req
      = some (⟨fun k => if k = req.NIK then some ⟨st.userCounter, req.NIK, req.Role, pw⟩
                else st.users k, st.userCounter + 1⟩,
              jsonResponse 201 (.register
                ⟨st.userCounter, req.NIK, req.Role, pw, "User berhasil didaftarkan"⟩)) := by
  simp [registerHandler.insert, hpw, fresh_reply, http.StatusCreated]

/-- The outcome of serving the request of the first goroutine completely and
then the request of the second. -/
theorem run_first_then_second (st : Store) (rndA rndB : Nat → Nat) (rA rB : Request)
    (k roleA roleB pw : String)
    (hmA : rA.Method = "POST") (hbA : rA.Body.asRegister = some ⟨k, roleA⟩)
    (hmB : rB.Method = "POST") (hbB : rB.Body.asRegister = some ⟨k, roleB⟩)
    (hk : k ≠ "") (hroleA : roleA ≠ "") (hroleB : roleB ≠ "")
    (habs : st.users k = none) (hpw : generatePassword rndA = some pw) :
    ((Sys.start st rndA rndB rA rB).run [true, true, false, false]).a.status = some 201 ∧
    ((Sys.start st rndA rndB rA rB).run [true, true, false, false]).b.status = some 409 ∧
    ((Sys.start st rndA rndB rA rB).run [true, true, false, false]).st.userCounter
      = st.userCounter + 1 ∧
    ((Sys.start st rndA rndB rA rB).run [true, true, false, false]).st.users
      = fun k1 => if k1 = k then some ⟨st.userCounter, k, roleA, pw⟩ else st.users k1 := by
  have h1 := check_absent st rA k roleA hmA hbA hk hroleA habs
  have h2 := insert_some rndA st ⟨k, roleA⟩ pw hpw
  have h3 := check_present
    ⟨fun k1 => if k1 = k then some ⟨st.userCounter, k, roleA, pw⟩ else st.users k1,
      st.userCounter + 1⟩ rB k roleB ⟨st.userCounter, k, roleA, pw⟩ hmB hbB hk hroleB
    (by simp)
  simp only [Sys.run, Sys.start, List.foldl, Sys.step, if_true, Goroutine.step, h1, h2, h3,
    Bool.false_eq_true, if_false, Goroutine.status, jsonResponse, and_self]

theorem run_second_then_first (st : Store) (rndA rndB : Nat → Nat) (rA rB : Request)
    (k roleA roleB pw : String)
    (hmA : rA.Method = "POST") (hbA : rA.Body.asRegister = some ⟨k, roleA⟩)
    (hmB : rB.Method = "POST") (hbB : rB.Body.asRegister = some ⟨k, roleB⟩)
    (hk : k ≠ "") (hroleA : roleA ≠ "") (hroleB : roleB ≠ "")
    (habs : st.users k = none) (hpw : generatePassword rndB = some pw) :
    ((Sys.start st rndA rndB rA rB).run [false, false, true, true]).a.status = some 409 ∧
    ((Sys.start st rndA rndB rA rB).run [false, false, true, true]).b.status = some 201 ∧
    ((Sys.start st rndA rndB rA rB).run [false, false, true, true]).st.userCounter
      = st.userCounter + 1 ∧
    ((Sys.start st rndA rndB rA rB).run [false, false, true, true]).st.users
      = fun k1 => if k1 = k then some ⟨st.userCounter, k, roleB, pw⟩ else st.users k1 := by
  have h1 := check_absent st rB k roleB hmB hbB hk hroleB habs
  have h2 := insert_some rndB st ⟨k, roleB⟩ pw hpw
  have h3 := check_present
    ⟨fun k1 => if k1 = k then some ⟨st.userCounter, k, roleB, pw⟩ else st.users k1,
      st.userCounter + 1⟩ rA k roleA ⟨st.userCounter, k, roleB, pw⟩ hmA hbA hk hroleA
    (by simp)
  simp only [Sys.run, Sys.start, List.foldl, Sys.step, if_true, Goroutine.step, h1, h2, h3,
    Bool.false_eq_true, if_false, Goroutine.status, jsonResponse, and_self]

/-- C10 (as stated, refuted): two register requests for the nik "123" on the
empty store, scheduled so that both existence checks run before either
insertion, are both answered 201 Created; the counter advances by two, to 3,
and the record left under "123" is the second one, with id 2. -/
theorem register_interleaving_counterexample :
    ((Sys.start Store.init id id (registerRequest "123" "user")
        (registerRequest "123" "user")).run [true, false, true, false]).a.status = some 201 ∧
    ((Sys.start Store.init id id (registerRequest "123" "user")
        (registerRequest "123" "user")).run [true, false, true, false]).b.status = some 201 ∧
    ((Sys.start Store.init id id (registerRequest "123" "user")
        (registerRequest "123" "user")).run [true, false, true, false]).st.userCounter = 3 ∧
    ((Sys.start Store.init id id (registerRequest "123" "user")
        (registerRequest "123" "user")).run [true, false, true, false]).st.users "123"
      = some ⟨2, "123", "user", "abcdef"⟩ := by
  decide

/-- C10 (amended): for every nik absent from the store and two register
requests for it (non-empty nik and roles, random indices in range), when the
two requests are served one after the other, in either order, exactly one is
answered 201 Created (the one served first) and the other 409 Conflict, the
only change to the user map is one record under the nik, and the counter
advances by exactly one. -/
theorem register_sequential (st : Store) (rndA rndB : Nat → Nat) (rA rB : Request)
    (k roleA roleB : String)
    (hmA : rA.Method = "POST") (hbA : rA.Body.asRegister = some ⟨k, roleA⟩)
    (hmB : rB.Method = "POST") (hbB : rB.Body.asRegister = some ⟨k, roleB⟩)
    (hk : k ≠ "") (hroleA : roleA ≠ "") (hroleB : roleB ≠ "")
    (habs : st.users k = none)
    (hrA : ∀ i, i < 6 → rndA i < 62) (hrB : ∀ i, i < 6 → rndB i < 62) :
    (((Sys.start st rndA rndB rA rB).run [true, true, false, false]).a.status = some 201 ∧
      ((Sys.start st rndA rndB rA rB).run [true, true, false, false]).b.status = some 409 ∧
      ((Sys.start st rndA rndB rA rB).run [true, true, false, false]).st.userCounter
        = st.userCounter + 1 ∧
      ∃ pw, ((Sys.start st rndA rndB rA rB).run [true, true, false, false]).st.users
        = fun k1 => if k1 = k then some ⟨st.userCounter, k, roleA, pw⟩ else st.users k1) ∧
    (((Sys.start st rndA rndB rA rB).run [false, false, true, true]).a.status = some 409 ∧
      ((Sys.start st rndA rndB rA rB).run [false, false, true, true]).b.status = some 201 ∧
      ((Sys.start st rndA rndB rA rB).run [false, false, true, true]).st.userCounter
        = st.userCounter + 1 ∧
      ∃ pw, ((Sys.start st rndA rndB rA rB).run [false, false, true, true]).st.users
        = fun k1 => if k1 = k then some ⟨st.userCounter, k, roleB, pw⟩ else st.users k1) ∧
    (∃ stA wA stB wB,
      registerHandler rndA st ResponseWriter.fresh rA = some (stA, wA) ∧
      registerHandler rndB stA ResponseWriter.fresh rB = some (stB, wB) ∧
      ((Sys.start st rndA rndB rA rB).run [true, true, false, false]).st = stB ∧
      ((Sys.start st rndA rndB rA rB).run [true, true, false, false]).a = .done wA ∧
      ((Sys.start st rndA rndB rA rB).run [true, true, false, false]).b = .done wB) := by
  obtain ⟨pwA, hpwA⟩ := generatePassword_some rndA hrA
  obtain ⟨pwB, hpwB⟩ := generatePassword_some rndB hrB
  obtain ⟨a1, a2, a3, a4⟩ :=
    run_first_then_second st rndA rndB rA rB k roleA roleB pwA hmA hbA hmB hbB hk hroleA
      hroleB habs hpwA
  obtain ⟨b1, b2, b3, b4⟩ :=
    run_second_then_first st rndA rndB rA rB k roleA roleB pwB hmA hbA hmB hbB hk hroleA
      hroleB habs hpwB
  refine ⟨⟨a1, a2, a3, pwA, a4⟩, ⟨b1, b2, b3, pwB, b4⟩, ?_⟩
  have h1 := check_absent st rA k roleA hmA hbA hk hroleA habs
  have h2 := insert_some rndA st ⟨k, roleA⟩ pwA hpwA
  have h3 := check_present
    ⟨fun k1 => if k1 = k then some ⟨st.userCounter, k, roleA, pwA⟩ else st.users k1,
      st.userCounter + 1⟩ rB k roleB ⟨st.userCounter, k, roleA, pwA⟩ hmB hbB hk hroleB
    (by simp)
  refine ⟨⟨fun k1 => if k1 = k then some ⟨st.userCounter, k, roleA, pwA⟩ else st.users k1,
      st.userCounter + 1⟩,
    jsonResponse 201 (.register ⟨st.userCounter, k, roleA, pwA, "User berhasil didaftarkan"⟩),
    ⟨fun k1 => if k1 = k then some ⟨st.userCounter, k, roleA, pwA⟩ else st.users k1,
      st.userCounter + 1⟩,
    jsonResponse 409 (.error ⟨"conflict", "NIK sudah terdaftar"⟩), ?_, ?_, ?_, ?_, ?_⟩
  · rw [registerHandler_eq_check_insert, h1]; exact h2
  · rw [registerHandler_eq_check_insert, h3]
  · simp only [Sys.run, Sys.start, List.foldl, Sys.step, if_true, Goroutine.step, h1, h2, h3,
      Bool.false_eq_true, if_false]
  · simp only [Sys.run, Sys.start, List.foldl, Sys.step, if_true, Goroutine.step, h1, h2, h3,
      Bool.false_eq_true, if_false]
  · simp only [Sys.run, Sys.start, List.foldl, Sys.step, if_true, Goroutine.step, h1, h2, h3,
      Bool.false_eq_true, if_false]

theorem register_sequential_witness :
    ((Sys.start Store.init id (fun i => i + 1) (registerRequest "123" "user")
        (registerRequest "123" "admin")).run [true, true, false, false]).a.status = some 201 ∧
    ((Sys.start Store.init id (fun i => i + 1) (registerRequest "123" "user")
        (registerRequest "123" "admin")).run [true, true, false, false]).b.status = some 409 ∧
    ((Sys.start Store.init id (fun i => i + 1) (registerRequest "123" "user")
        (registerRequest "123" "admin")).run [true, true, false, false]).st.userCounter
      = Store.init.userCounter + 1 :=
  ⟨(register_sequential Store.init id (fun i => i + 1) (registerRequest "123" "user")
      (registerRequest "123" "admin") "123" "user" "admin" rfl rfl rfl rfl (by decide)
      (by decide) (by decide) rfl (fun i hi => by show i < 62; omega)
      (fun i hi => by show i + 1 < 62; omega)).1.1,
   (register_sequential Store.init id (fun i => i + 1) (registerRequest "123" "user")
      (registerRequest "123" "admin") "123" "user" "admin" rfl rfl rfl rfl (by decide)
      (by decide) (by decide) rfl (fun i hi => by show i < 62; omega)
      (fun i hi => by show i + 1 < 62; omega)).1.2.1,
   (register_sequential Store.init id (fun i => i + 1) (registerRequest "123" "user")
      (registerRequest "123" "admin") "123" "user" "admin" rfl rfl rfl rfl (by decide)
      (by decide) (by decide) rfl (fun i hi => by show i < 62; omega)
      (fun i hi => by show i + 1 < 62; omega)).1.2.2.1⟩

end AuthApi
